import Mathlib

/-!
Verification of the SendPulse MCP server (`src/index.ts`) against its
natural-language specification.

The TypeScript source is shallowly embedded: times are in milliseconds
(`Int`, the value of `Date.now()`), JavaScript string truthiness is modelled
explicitly (`""` and `undefined` are falsy), network effects (`fetch`
outcomes, OAuth responses) are passed in as explicit parameters, and the
process-wide mutable tables (`tokenCache`, `transports`) are passed and
returned as association lists.
-/

namespace SendPulse

/-- JavaScript truthiness for `string | undefined` values:
`undefined` and `""` are falsy, every other string is truthy. -/
def jsTruthy : Option String → Bool
  | none => false
  | some s => s ≠ ""

/-- Minimal JSON value model (for request bodies and proxy results). -/
inductive Json where
  | null : Json
  | bool (b : Bool) : Json
  | num (n : Int) : Json
  | str (s : String) : Json
  | arr (elems : List Json) : Json
  | obj (fields : List (String × Json)) : Json
deriving Repr

/-- Field lookup in a JSON object (first match). -/
def Json.getField : Json → String → Option Json
  | .obj fields, k => fields.lookup k
  | _, _ => none

mutual

/-- A compact JSON renderer standing in for `JSON.stringify` (the library
serialization used when a tool turns the proxy result into text). -/
def Json.render : Json → String
  | .null => "null"
  | .bool true => "true"
  | .bool false => "false"
  | .num n => toString n
  | .str s => "\"" ++ s ++ "\""
  | .arr elems => "[" ++ Json.renderElems elems ++ "]"
  | .obj fields => "\x7b" ++ Json.renderFields fields ++ "\x7d"

/-- Comma-separated rendering of JSON array elements. -/
def Json.renderElems : List Json → String
  | [] => ""
  | [x] => Json.render x
  | x :: xs => Json.render x ++ "," ++ Json.renderElems xs

/-- Comma-separated rendering of JSON object fields. -/
def Json.renderFields : List (String × Json) → String
  | [] => ""
  | [(k, v)] => "\"" ++ k ++ "\":" ++ Json.render v
  | (k, v) :: xs => "\"" ++ k ++ "\":" ++ Json.render v ++ "," ++ Json.renderFields xs

end

-- --- Token cache (`const tokenCache = new Map<string, Token>()`) ---

/-- `interface Token { token: string; expiresAt: number }`
(`expiresAt` in milliseconds since epoch). -/
structure Token where
  token : String
  expiresAt : Int
deriving Repr, DecidableEq

/-- The process-wide token cache, keyed by API id. -/
abbrev TokenCache := List (String × Token)

/-- `tokenCache.get(key)`. -/
def cacheGet (c : TokenCache) (k : String) : Option Token :=
  c.lookup k

/-- `tokenCache.set(key, v)`: replace any existing entry for `key`. -/
def cacheSet (c : TokenCache) (k : String) (v : Token) : TokenCache :=
  (k, v) :: c.filter (fun e => e.1 ≠ k)

-- --- OAuth exchange (`getSendPulseOAuthToken`) ---

/-- Outcome of the `fetch` to `/oauth/access_token`, as observed by
`getSendPulseOAuthToken`:
`httpError` is `!response.ok`; `networkError` is a thrown fetch/JSON error;
`ok` carries the parsed body's `access_token` and optional `expires_in`
(seconds; `none` when the field is absent from the response). -/
inductive OAuthResponse where
  | httpError (status : Nat)
  | networkError
  | ok (accessToken : String) (expiresIn : Option Nat)
deriving Repr, DecidableEq

/-- Result of one call to `getSendPulseOAuthToken`: the returned
`Token | null`, the token cache afterwards, and whether the OAuth
exchange (the `fetch`) was performed. -/
structure OAuthResolveResult where
  result : Option Token
  cache : TokenCache
  exchanged : Bool
deriving Repr, DecidableEq

/-- The absolute expiry computed for a fresh token fetched at `now`:
`Date.now() + (tokenData.expires_in || 3600) * 1000 - 60000`.
Note `||` is JavaScript's falsy-or: an `expires_in` of `0` falls back to
the 3600-second default. -/
def tokenExpiry (now : Int) (expiresIn : Option Nat) : Int :=
  let secs : Nat := match expiresIn with
    | some n => if n = 0 then 3600 else n
    | none => 3600
  now + (secs : Int) * 1000 - 60000

/-- `getSendPulseOAuthToken(apiId, apiSecret)` at time `now`, with token
cache `c` and OAuth endpoint behaviour `resp`. Mirrors the source:
a cached token with `expiresAt > Date.now()` is returned without any
fetch; otherwise the exchange runs, failing (`null`) on a non-ok status,
a thrown error, or a falsy `access_token`, and otherwise caching and
returning the fresh token. The `apiSecret` is only sent with the exchange
request; it never influences a cache hit. -/
def getSendPulseOAuthToken (c : TokenCache) (now : Int)
    (apiId : String) (_apiSecret : String) (resp : OAuthResponse) :
    OAuthResolveResult :=
  match cacheGet c apiId with
  | some cached =>
    if cached.expiresAt > now then
      ⟨some cached, c, false⟩
    else
      getFresh
  | none => getFresh
where
  getFresh : OAuthResolveResult :=
    match resp with
    | .httpError _ => ⟨none, c, true⟩
    | .networkError => ⟨none, c, true⟩
    | .ok accessToken expiresIn =>
      if accessToken = "" then
        ⟨none, c, true⟩
      else
        let newToken : Token := ⟨accessToken, tokenExpiry now expiresIn⟩
        ⟨some newToken, cacheSet c apiId newToken, true⟩

-- --- Upstream request proxy (`makeSendPulseRequest`) ---

/-- `SENDPULSE_API_BASE`. -/
def SENDPULSE_API_BASE : String := "https://api.sendpulse.com"

/-- `CHANNEL_API_PATHS` as an association list. -/
def CHANNEL_API_PATHS : List (String × String) :=
  [("whatsapp", "/whatsapp"),
   ("telegram", "/telegram"),
   ("instagram", "/instagram"),
   ("messenger", "/messenger"),
   ("livechat", "/live-chat"),
   ("viber", "/viber/chatbots"),
   ("chatbots", "/chatbots")]

/-- `CHANNEL_API_PATHS[channel]` as evaluated at runtime: an unrecognized
channel tag yields `undefined`, which a template literal interpolates as
the string `"undefined"` — there is no recognition check in the proxy. -/
def channelBasePath (channel : String) : String :=
  match CHANNEL_API_PATHS.lookup channel with
  | some p => p
  | none => "undefined"

/-- The options object of `makeSendPulseRequest`. `params`, when present,
is the `URLSearchParams` content as ordered key/value pairs (note: an
empty `URLSearchParams` object is still truthy, so a `?` is appended). -/
structure RequestOptions where
  method : Option String := none
  params : Option (List (String × String)) := none
  body : Option Json := none

/-- `URLSearchParams.toString()` for the parameter lists the tools build
(plain `k=v` pairs joined with `&`; the values appended by the tools need
no percent-encoding). -/
def renderQuery (ps : List (String × String)) : String :=
  String.intercalate "&" (ps.map (fun p => p.1 ++ "=" ++ p.2))

/-- The URL `makeSendPulseRequest` fetches:
`` `${SENDPULSE_API_BASE}${basePath}${path}${options.params ? `?${options.params}` : ''}` ``. -/
def requestUrl (channel path : String) (params : Option (List (String × String))) : String :=
  SENDPULSE_API_BASE ++ channelBasePath channel ++ path ++
    (match params with
     | some ps => "?" ++ renderQuery ps
     | none => "")

/-- The full upstream HTTP request a tool handler issues through the proxy. -/
structure UpstreamCall where
  url : String
  method : String
  params : List (String × String)
  body : Option Json
deriving Repr

/-- The request `makeSendPulseRequest channel path options` issues
(method defaults to GET via `options.method || 'GET'`). -/
def proxyCall (channel path : String) (opts : RequestOptions) : UpstreamCall :=
  ⟨requestUrl channel path opts.params,
   (opts.method).getD "GET",
   (opts.params).getD [],
   opts.body⟩

/-- Outcome of the `fetch` performed by `makeSendPulseRequest`, as the
surrounding code observes it: `ok` is a 2xx response with a JSON body,
`okBadJson` a 2xx response whose body fails to parse (`response.json()`
throws into the catch), `httpError` is `!response.ok` with the raw text
body, `networkError` a thrown fetch error. -/
inductive FetchOutcome where
  | ok (body : Json)
  | okBadJson
  | httpError (status : Nat) (body : String)
  | networkError
deriving Repr

/-- The result value of `makeSendPulseRequest`: the parsed JSON on
success, and a uniform `{ success: false, ... }` value on any failure —
the function never throws to its caller. -/
def makeSendPulseRequest (_channel _path : String) (_token : String)
    (_opts : RequestOptions) (outcome : FetchOutcome) : Json :=
  match outcome with
  | .ok body => body
  | .okBadJson =>
    .obj [("success", .bool false), ("error", .str "An unexpected error occurred.")]
  | .httpError status body =>
    .obj [("success", .bool false),
          ("error", .str ("API request failed with status " ++ toString status)),
          ("details", .str body)]
  | .networkError =>
    .obj [("success", .bool false), ("error", .str "An unexpected error occurred.")]

-- --- Tool registry (`createSendPulseServer`) ---

/-- A tool's result: `{ content: [{ type: "text", text }] }`. -/
structure ToolResult where
  text : String
deriving Repr, DecidableEq

/-- `JSON.stringify(result, null, 2)` wrapped as the tool's textual output;
the serialization is modelled by `Json.render`. -/
def toolText (result : Json) : ToolResult :=
  ⟨Json.render result⟩

/-- `get_account_info`: GET `/chatbots/account` (no input). -/
def getAccountInfoHandler (authToken : String) (outcome : FetchOutcome) : ToolResult :=
  toolText (makeSendPulseRequest "chatbots" "/account" authToken {} outcome)

/-- `get_bots_list`: GET `/chatbots/bots` (no input). -/
def getBotsListHandler (authToken : String) (outcome : FetchOutcome) : ToolResult :=
  toolText (makeSendPulseRequest "chatbots" "/bots" authToken {} outcome)

/-- The input parameter names `get_dialogs` declares in its zod schema.
(The `search_after` cursor parameter is commented out in the source.) -/
def getDialogsSchema : List String := ["size", "skip", "order"]

/-- The arguments of a `get_dialogs` call after schema validation:
optional `size`, `skip` (numbers) and `order` (`"asc" | "desc"`);
`none` models an argument that was not supplied (or was `undefined`/`null`). -/
structure GetDialogsArgs where
  size : Option Int := none
  skip : Option Int := none
  order : Option String := none
deriving Repr, DecidableEq

/-- The `URLSearchParams` built by the `get_dialogs` handler: one `k=String(v)`
entry per argument that is neither `undefined` nor `null`. -/
def getDialogsParams (a : GetDialogsArgs) : List (String × String) :=
  (match a.size with | some n => [("size", toString n)] | none => []) ++
  (match a.skip with | some n => [("skip", toString n)] | none => []) ++
  (match a.order with | some o => [("order", o)] | none => [])

/-- The upstream request issued by `get_dialogs`. -/
def getDialogsCall (a : GetDialogsArgs) : UpstreamCall :=
  proxyCall "chatbots" "/dialogs" { params := some (getDialogsParams a) }

/-- `get_dialogs`: GET `/chatbots/dialogs` with the filtered arguments as
query parameters. -/
def getDialogsHandler (authToken : String) (a : GetDialogsArgs)
    (outcome : FetchOutcome) : ToolResult :=
  toolText (makeSendPulseRequest "chatbots" "/dialogs" authToken
    { params := some (getDialogsParams a) } outcome)

/-- The channel-specific request body built by the `send_message` switch;
`none` is the `default` branch (channel tag outside the supported set). -/
def sendMessageBody (channel contact_id text : String) : Option Json :=
  if channel = "whatsapp" then
    some (.obj [("contact_id", .str contact_id),
                ("message", .obj [("type", .str "text"),
                                  ("text", .obj [("body", .str text)])])])
  else if channel = "telegram" then
    some (.obj [("contact_id", .str contact_id),
                ("message", .obj [("type", .str "text"), ("text", .str text)])])
  else if channel = "instagram" then
    some (.obj [("contact_id", .str contact_id),
                ("messages", .arr [.obj [("type", .str "text"),
                                         ("message", .obj [("text", .str text)])]])])
  else if channel = "messenger" then
    some (.obj [("contact_id", .str contact_id),
                ("message", .obj [("type", .str "RESPONSE"),
                                  ("tag", .str "ACCOUNT_UPDATE"),
                                  ("content_type", .str "message"),
                                  ("text", .str text)])])
  else if channel = "livechat" ∨ channel = "viber" then
    some (.obj [("contact_id", .str contact_id),
                ("messages", .arr [.obj [("type", .str "text"),
                                         ("text", .obj [("text", .str text)])]])])
  else
    none

/-- The upstream request `send_message` issues for a supported channel
(`none` when the switch hits its `default` branch and no request is made). -/
def sendMessageCall (channel contact_id text : String) : Option UpstreamCall :=
  (sendMessageBody channel contact_id text).map (fun body =>
    proxyCall channel "/contacts/send" { method := some "POST", body := some body })

/-- `send_message`: builds the per-channel body and POSTs it to
`/contacts/send` under the channel's path prefix; an unsupported channel
tag returns the textual error result instead. -/
def sendMessageHandler (authToken channel contact_id text : String)
    (outcome : FetchOutcome) : ToolResult :=
  match sendMessageBody channel contact_id text with
  | none => ⟨"Error: Channel '" ++ channel ++ "' is not supported."⟩
  | some body =>
    toolText (makeSendPulseRequest channel "/contacts/send" authToken
      { method := some "POST", body := some body } outcome)

-- --- Session initialization (`app.post('/mcp')`, initialize branch) ---

/-- The request headers the initialize branch reads:
`authorization`, `x-sp-id`, `x-sp-secret` (each `string | undefined`). -/
structure InitHeaders where
  authorization : Option String := none
  xSpId : Option String := none
  xSpSecret : Option String := none
deriving Repr, DecidableEq

/-- `s.startsWith(pre)` (computed on the character lists). -/
def jsStartsWith (s pre : String) : Bool :=
  pre.data.isPrefixOf s.data

/-- The bearer extraction:
`if (authHeader && authHeader.startsWith('Bearer ')) authToken = authHeader.substring(7)`.
Returns the JavaScript value of `authToken` after this step
(`none` = still `undefined`). -/
def bearerExtract (authHeader : Option String) : Option String :=
  match authHeader with
  | some ah => if ah ≠ "" ∧ jsStartsWith ah "Bearer " then some (ah.drop 7) else none
  | none => none

/-- Outcome of the initialize branch: either the 401 JSON-RPC error
response (HTTP status and RPC error code as sent), or a session created
around a server bound to `authToken`. -/
inductive InitOutcome where
  | unauthorized (httpStatus : Nat) (rpcCode : Int)
  | session (authToken : String)
deriving Repr, DecidableEq

/-- Result of handling one initialize request: the outcome, the token
cache afterwards, and whether an OAuth exchange was performed. -/
structure InitResult where
  outcome : InitOutcome
  cache : TokenCache
  exchanged : Bool
deriving Repr, DecidableEq

/-- The `x-sp-id`/`x-sp-secret` step:
`if (!authToken && apiId && apiSecret) { ... token = await getSendPulseOAuthToken(...); if (token) authToken = token.token }`.
Takes the value `a₁` of `authToken` after the bearer step and returns the
value of `authToken` after this step together with the token cache and
whether an OAuth exchange was performed. -/
def oauthStep (a₁ : Option String) (h : InitHeaders) (c : TokenCache) (now : Int)
    (resp : OAuthResponse) : Option String × TokenCache × Bool :=
  if ¬ jsTruthy a₁ ∧ jsTruthy h.xSpId ∧ jsTruthy h.xSpSecret then
    let r := getSendPulseOAuthToken c now (h.xSpId.getD "") (h.xSpSecret.getD "") resp
    (match r.result with
     | some t => some t.token
     | none => a₁,
     r.cache, r.exchanged)
  else
    (a₁, c, false)

/-- The body-token step:
`if (!authToken) { const bodyAuth = ...params?.authorization; if (bodyAuth) authToken = bodyAuth }`. -/
def bodyStep (a₂ : Option String) (bodyAuth : Option String) : Option String :=
  if ¬ jsTruthy a₂ then
    (if jsTruthy bodyAuth then bodyAuth else a₂)
  else a₂

/-- The credential-resolution and response logic of the initialize branch
of `app.post('/mcp')`. `bodyAuth` is `initializeRequest.params?.authorization`;
`resp` is the OAuth endpoint's behaviour should the exchange run.
Mirrors the source's three JavaScript-truthiness-guarded steps:
bearer header, then `x-sp-id`/`x-sp-secret` via `getSendPulseOAuthToken`,
then the body token; with no truthy token the request is answered
`401` / `-32001` and no transport or server is constructed. -/
def handleInitialize (h : InitHeaders) (bodyAuth : Option String)
    (c : TokenCache) (now : Int) (resp : OAuthResponse) : InitResult :=
  let s := oauthStep (bearerExtract h.authorization) h c now resp
  let a₃ := bodyStep s.1 bodyAuth
  if ¬ jsTruthy a₃ then
    ⟨.unauthorized 401 (-32001), s.2.1, s.2.2⟩
  else
    ⟨.session (a₃.getD ""), s.2.1, s.2.2⟩

-- --- Session table and lifecycle (`transports`, `transport.onclose`) ---

/-- The `transports` table: session id → transport, with transports
identified by a numeric identity (JavaScript object identity for `===`). -/
abbrev SessTable := List (String × Nat)

/-- `transports[sid]` (`undefined` = `none`). -/
def tableGet (t : SessTable) (sid : String) : Option Nat :=
  t.lookup sid

/-- `transports[newSessionId] = transport` (the `onsessioninitialized`
callback registering a session). -/
def tableSet (t : SessTable) (sid : String) (tid : Nat) : SessTable :=
  (sid, tid) :: t.filter (fun e => e.1 ≠ sid)

/-- `delete transports[sid]`. -/
def tableDelete (t : SessTable) (sid : String) : SessTable :=
  t.filter (fun e => e.1 ≠ sid)

/-- A cleanup scheduled by `transport.onclose` via `setTimeout(..., 60000)`:
which session id and which transport identity it will check, and the
absolute time at which it fires. -/
structure ScheduledCleanup where
  sid : String
  tid : Nat
  fireAt : Int
deriving Repr, DecidableEq

/-- `transport.onclose` at time `now`: the table itself is untouched, and
iff the transport has a (truthy) session id a cleanup for that id and this
transport is scheduled 60000 ms later. -/
def handleTransportClose (t : SessTable) (sessionId : Option String)
    (tid : Nat) (now : Int) : SessTable × Option ScheduledCleanup :=
  match sessionId with
  | some sid =>
    if sid ≠ "" then (t, some ⟨sid, tid, now + 60000⟩) else (t, none)
  | none => (t, none)

/-- The body of the scheduled `setTimeout` callback:
`if (transports[sessionId] === transport) delete transports[sessionId]` —
the entry is removed only when it is still the very transport that closed. -/
def runScheduledCleanup (t : SessTable) (j : ScheduledCleanup) : SessTable :=
  match tableGet t j.sid with
  | some tid => if tid = j.tid then tableDelete t j.sid else t
  | none => t

/-- One initialize request handled against the whole server state: the
session table is extended (under the fresh generated id `newSid`, with the
new transport's identity `newTid`) exactly when a session is created, and
is untouched on the 401 path. -/
def handleInitWithSessions (sessions : SessTable) (newSid : String) (newTid : Nat)
    (h : InitHeaders) (bodyAuth : Option String) (c : TokenCache) (now : Int)
    (resp : OAuthResponse) : InitResult × SessTable :=
  let r := handleInitialize h bodyAuth c now resp
  match r.outcome with
  | .unauthorized _ _ => (r, sessions)
  | .session _ => (r, tableSet sessions newSid newTid)

-- --- Helper lemmas ---

theorem jsTruthy_some_true {s : String} (h : s ≠ "") : jsTruthy (some s) = true := by
  simp [jsTruthy, h]

theorem jsTruthy_some_false {s : String} (h : s = "") : jsTruthy (some s) = false := by
  simp [jsTruthy, h]

theorem cacheGet_cacheSet_self (c : TokenCache) (k : String) (v : Token) :
    cacheGet (cacheSet c k v) k = some v := by
  simp [cacheGet, cacheSet, List.lookup]

theorem getSendPulseOAuthToken_hit {c : TokenCache} {now : Int} {apiId : String}
    (apiSecret : String) (resp : OAuthResponse) {t : Token}
    (hget : cacheGet c apiId = some t) (hfresh : t.expiresAt > now) :
    getSendPulseOAuthToken c now apiId apiSecret resp = ⟨some t, c, false⟩ := by
  simp [getSendPulseOAuthToken, hget, hfresh]

theorem getSendPulseOAuthToken_ok_of_miss {c : TokenCache} {now : Int} {apiId : String}
    (apiSecret : String) {accessToken : String} {expiresIn : Option Nat}
    (hget : cacheGet c apiId = none) (htok : accessToken ≠ "") :
    getSendPulseOAuthToken c now apiId apiSecret (.ok accessToken expiresIn) =
      ⟨some ⟨accessToken, tokenExpiry now expiresIn⟩,
       cacheSet c apiId ⟨accessToken, tokenExpiry now expiresIn⟩, true⟩ := by
  simp [getSendPulseOAuthToken, hget, getSendPulseOAuthToken.getFresh, htok]

theorem getSendPulseOAuthToken_ok_of_stale {c : TokenCache} {now : Int} {apiId : String}
    (apiSecret : String) {accessToken : String} {expiresIn : Option Nat} {t : Token}
    (hget : cacheGet c apiId = some t) (hstale : ¬ t.expiresAt > now)
    (htok : accessToken ≠ "") :
    getSendPulseOAuthToken c now apiId apiSecret (.ok accessToken expiresIn) =
      ⟨some ⟨accessToken, tokenExpiry now expiresIn⟩,
       cacheSet c apiId ⟨accessToken, tokenExpiry now expiresIn⟩, true⟩ := by
  simp [getSendPulseOAuthToken, hget, hstale, getSendPulseOAuthToken.getFresh, htok]

-- --- C2 ---

/-- C2: a first successful OAuth exchange for an api id with no valid
cached token performs the exchange and stores the fresh token under that
api id; every later resolution for that api id strictly before the stored
token's `expiresAt` returns the cached token with no new exchange; and a
resolution finding a cached token whose `expiresAt` is not in the future
never returns it from the cache and performs a new exchange. -/
theorem C2_token_cache_policy :
    (∀ (c : TokenCache) (now : Int) (apiId apiSecret accessToken : String)
        (expiresIn : Option Nat),
      (∀ t, cacheGet c apiId = some t → ¬ t.expiresAt > now) →
      accessToken ≠ "" →
      (getSendPulseOAuthToken c now apiId apiSecret (.ok accessToken expiresIn)).exchanged
          = true ∧
      cacheGet (getSendPulseOAuthToken c now apiId apiSecret
          (.ok accessToken expiresIn)).cache apiId
          = some ⟨accessToken, tokenExpiry now expiresIn⟩ ∧
      (∀ (now' : Int) (apiSecret' : String) (resp' : OAuthResponse),
        now' < tokenExpiry now expiresIn →
        getSendPulseOAuthToken
            (getSendPulseOAuthToken c now apiId apiSecret (.ok accessToken expiresIn)).cache
            now' apiId apiSecret' resp' =
          ⟨some ⟨accessToken, tokenExpiry now expiresIn⟩,
           (getSendPulseOAuthToken c now apiId apiSecret (.ok accessToken expiresIn)).cache,
           false⟩)) ∧
    (∀ (c : TokenCache) (now : Int) (apiId apiSecret : String) (resp : OAuthResponse)
        (t : Token),
      cacheGet c apiId = some t → ¬ t.expiresAt > now →
      (getSendPulseOAuthToken c now apiId apiSecret resp).exchanged = true) := by
  constructor
  · intro c now apiId apiSecret accessToken expiresIn hnovalid htok
    have hmain : getSendPulseOAuthToken c now apiId apiSecret (.ok accessToken expiresIn) =
        ⟨some ⟨accessToken, tokenExpiry now expiresIn⟩,
         cacheSet c apiId ⟨accessToken, tokenExpiry now expiresIn⟩, true⟩ := by
      cases hget : cacheGet c apiId with
      | none => exact getSendPulseOAuthToken_ok_of_miss apiSecret hget htok
      | some t => exact getSendPulseOAuthToken_ok_of_stale apiSecret hget (hnovalid t hget) htok
    refine ⟨by rw [hmain], by rw [hmain]; exact cacheGet_cacheSet_self .., ?_⟩
    intro now' apiSecret' resp' hlt
    rw [hmain]
    exact getSendPulseOAuthToken_hit apiSecret' resp' (cacheGet_cacheSet_self ..) hlt
  · intro c now apiId apiSecret resp t hget hstale
    cases resp with
    | httpError status =>
      simp [getSendPulseOAuthToken, hget, hstale, getSendPulseOAuthToken.getFresh]
    | networkError =>
      simp [getSendPulseOAuthToken, hget, hstale, getSendPulseOAuthToken.getFresh]
    | ok accessToken expiresIn =>
      by_cases htok : accessToken = "" <;>
        simp [getSendPulseOAuthToken, hget, hstale, getSendPulseOAuthToken.getFresh, htok]

/-- C2 witness: a concrete first exchange at time 0 (lifetime 100 s) caches
the token, a resolution at time 30000 ms is a pure cache hit, and an
expired entry forces a new exchange. -/
theorem C2_token_cache_policy_witness :
    (getSendPulseOAuthToken [] 0 "id1" "sec1" (.ok "tokA" (some 100))).exchanged = true ∧
    cacheGet (getSendPulseOAuthToken [] 0 "id1" "sec1" (.ok "tokA" (some 100))).cache "id1"
      = some ⟨"tokA", tokenExpiry 0 (some 100)⟩ ∧
    getSendPulseOAuthToken
        (getSendPulseOAuthToken [] 0 "id1" "sec1" (.ok "tokA" (some 100))).cache
        30000 "id1" "sec1" .networkError =
      ⟨some ⟨"tokA", tokenExpiry 0 (some 100)⟩,
       (getSendPulseOAuthToken [] 0 "id1" "sec1" (.ok "tokA" (some 100))).cache, false⟩ ∧
    (getSendPulseOAuthToken [("id2", ⟨"old", 5⟩)] 5 "id2" "sec2" .networkError).exchanged
      = true := by
  have h₁ := C2_token_cache_policy.1 [] 0 "id1" "sec1" "tokA" (some 100)
    (by intro t ht; simp [cacheGet] at ht) (by decide)
  have h₂ := C2_token_cache_policy.2 [("id2", ⟨"old", 5⟩)] 5 "id2" "sec2" .networkError
    ⟨"old", 5⟩ (by rfl) (by decide)
  exact ⟨h₁.1, h₁.2.1, h₁.2.2 30000 "sec1" .networkError (by decide), h₂⟩

-- --- C10 ---

/-- C10: the token cache is keyed by the api id alone; on a cache hit the
supplied secret (and the OAuth endpoint) are never consulted, so two
resolutions differing only in the secret return the same cached token,
with no exchange. -/
theorem C10_secret_not_reverified :
    ∀ (c : TokenCache) (now : Int) (apiId : String) (t : Token)
      (s₁ s₂ : String) (r₁ r₂ : OAuthResponse),
      cacheGet c apiId = some t → t.expiresAt > now →
      getSendPulseOAuthToken c now apiId s₁ r₁ = getSendPulseOAuthToken c now apiId s₂ r₂ ∧
      getSendPulseOAuthToken c now apiId s₁ r₁ = ⟨some t, c, false⟩ := by
  intro c now apiId t s₁ s₂ r₁ r₂ hget hfresh
  rw [getSendPulseOAuthToken_hit s₁ r₁ hget hfresh,
      getSendPulseOAuthToken_hit s₂ r₂ hget hfresh]
  exact ⟨rfl, rfl⟩

/-- C10 witness: with `tok` cached for `"id1"` and unexpired, resolving with
two different secrets (and even different OAuth endpoint behaviours)
yields the identical cached result. -/
theorem C10_secret_not_reverified_witness :
    getSendPulseOAuthToken [("id1", ⟨"tok", 1000⟩)] 0 "id1" "secretA" .networkError =
      getSendPulseOAuthToken [("id1", ⟨"tok", 1000⟩)] 0 "id1" "secretB" (.ok "other" none) ∧
    getSendPulseOAuthToken [("id1", ⟨"tok", 1000⟩)] 0 "id1" "secretA" .networkError =
      ⟨some ⟨"tok", 1000⟩, [("id1", ⟨"tok", 1000⟩)], false⟩ :=
  C10_secret_not_reverified [("id1", ⟨"tok", 1000⟩)] 0 "id1" ⟨"tok", 1000⟩
    "secretA" "secretB" .networkError (.ok "other" none) (by rfl) (by decide)

-- --- C3 ---

/-- C3 counterexample: a successful exchange whose response declares
`expires_in: 0` (a declared lifetime of 0 seconds) is cached with expiry
`now + 3540000` ms — the 3600-second default — not `now + 0 - 60000` as
the claim's formula requires for every declared lifetime, because
JavaScript's `(tokenData.expires_in || 3600)` treats `0` as absent. -/
theorem C3_counterexample :
    (getSendPulseOAuthToken [] 0 "id1" "sec1" (.ok "abc" (some 0))).result
      = some ⟨"abc", 3540000⟩ ∧
    (3540000 : Int) ≠ 0 + 0 * 1000 - 60000 := by
  exact ⟨rfl, by decide⟩

/-- C3 (amended): for a successful exchange at time `now`, a declared
nonzero `expires_in` of `n` seconds yields cached expiry
`now + n·1000 − 60000` ms (the fixed 60-second margin); an omitted — or,
by JavaScript falsiness, zero — `expires_in` yields the 3600-second
default, `now + 3600000 − 60000` ms. -/
theorem C3_expiry_policy :
    ∀ (now : Int) (n : Nat),
      (n ≠ 0 → tokenExpiry now (some n) = now + (n : Int) * 1000 - 60000) ∧
      tokenExpiry now none = now + 3600 * 1000 - 60000 ∧
      tokenExpiry now (some 0) = now + 3600 * 1000 - 60000 ∧
      (∀ (c : TokenCache) (apiId apiSecret accessToken : String) (expiresIn : Option Nat),
        cacheGet c apiId = none → accessToken ≠ "" →
        (getSendPulseOAuthToken c now apiId apiSecret (.ok accessToken expiresIn)).result
          = some ⟨accessToken, tokenExpiry now expiresIn⟩) := by
  intro now n
  refine ⟨fun hn => ?_, rfl, rfl, fun c apiId apiSecret accessToken expiresIn hget htok => ?_⟩
  · simp [tokenExpiry, hn]
  · rw [getSendPulseOAuthToken_ok_of_miss apiSecret hget htok]

/-- C3 witness: at `now = 0`, `expires_in = 3600` gives expiry 3540000 ms
(T+3540 s), an omitted `expires_in` gives the same default, and a concrete
fresh exchange stores exactly that expiry. -/
theorem C3_expiry_policy_witness :
    tokenExpiry 0 (some 3600) = 0 + 3600 * 1000 - 60000 ∧
    tokenExpiry 0 none = 0 + 3600 * 1000 - 60000 ∧
    (getSendPulseOAuthToken [] 0 "id9" "sec9" (.ok "abc" (some 3600))).result
      = some ⟨"abc", tokenExpiry 0 (some 3600)⟩ :=
  ⟨(C3_expiry_policy 0 3600).1 (by decide),
   (C3_expiry_policy 0 3600).2.1,
   (C3_expiry_policy 0 3600).2.2.2 [] "id9" "sec9" "abc" (some 3600) (by rfl) (by decide)⟩

-- --- C1 ---

theorem oauthStep_skip {a₁ : Option String} (h : InitHeaders) (c : TokenCache)
    (now : Int) (resp : OAuthResponse) (ha : jsTruthy a₁ = true) :
    oauthStep a₁ h c now resp = (a₁, c, false) := by
  rw [oauthStep, if_neg]
  intro hcond
  exact hcond.1 ha

theorem oauthStep_no_pair {a₁ : Option String} {h : InitHeaders} (c : TokenCache)
    (now : Int) (resp : OAuthResponse)
    (hpair : jsTruthy h.xSpId = false ∨ jsTruthy h.xSpSecret = false) :
    oauthStep a₁ h c now resp = (a₁, c, false) := by
  rw [oauthStep, if_neg]
  intro hcond
  rcases hpair with hp | hp
  · rw [hcond.2.1] at hp; exact Bool.true_eq_false.mp hp
  · rw [hcond.2.2] at hp; exact Bool.true_eq_false.mp hp

theorem oauthStep_run {a₁ : Option String} {h : InitHeaders} (c : TokenCache)
    (now : Int) (resp : OAuthResponse)
    (ha : jsTruthy a₁ = false) (hid : jsTruthy h.xSpId = true)
    (hsec : jsTruthy h.xSpSecret = true) :
    oauthStep a₁ h c now resp =
      (match (getSendPulseOAuthToken c now (h.xSpId.getD "") (h.xSpSecret.getD "") resp).result
       with
       | some t => some t.token
       | none => a₁,
       (getSendPulseOAuthToken c now (h.xSpId.getD "") (h.xSpSecret.getD "") resp).cache,
       (getSendPulseOAuthToken c now (h.xSpId.getD "") (h.xSpSecret.getD "") resp).exchanged) := by
  rw [oauthStep, if_pos ⟨by simp [ha], hid, hsec⟩]

theorem bodyStep_keep {a₂ : Option String} (bodyAuth : Option String)
    (ha : jsTruthy a₂ = true) : bodyStep a₂ bodyAuth = a₂ := by
  rw [bodyStep, if_neg]
  intro hcond
  exact hcond ha

theorem bodyStep_use {a₂ bodyAuth : Option String}
    (ha : jsTruthy a₂ = false) (hbody : jsTruthy bodyAuth = true) :
    bodyStep a₂ bodyAuth = bodyAuth := by
  rw [bodyStep, if_pos (by simp [ha]), if_pos hbody]

theorem bodyStep_none {a₂ bodyAuth : Option String}
    (ha : jsTruthy a₂ = false) (hbody : jsTruthy bodyAuth = false) :
    bodyStep a₂ bodyAuth = a₂ := by
  rw [bodyStep, if_pos (by simp [ha]), if_neg (by simp [hbody])]

theorem handleInitialize_eq (h : InitHeaders) (bodyAuth : Option String)
    (c : TokenCache) (now : Int) (resp : OAuthResponse) :
    handleInitialize h bodyAuth c now resp =
      (let s := oauthStep (bearerExtract h.authorization) h c now resp
       let a₃ := bodyStep s.1 bodyAuth
       if ¬ jsTruthy a₃ then
         ⟨.unauthorized 401 (-32001), s.2.1, s.2.2⟩
       else
         ⟨.session (a₃.getD ""), s.2.1, s.2.2⟩) := rfl

theorem handleInitialize_bearer {h : InitHeaders} {tk : String}
    (bodyAuth : Option String) (c : TokenCache) (now : Int) (resp : OAuthResponse)
    (hb : bearerExtract h.authorization = some tk) (htk : tk ≠ "") :
    handleInitialize h bodyAuth c now resp = ⟨.session tk, c, false⟩ := by
  have htr : jsTruthy (bearerExtract h.authorization) = true := by
    rw [hb]; exact jsTruthy_some_true htk
  rw [handleInitialize_eq]
  simp only [oauthStep_skip h c now resp htr, bodyStep_keep bodyAuth htr]
  rw [if_neg (by simp [htr]), hb]
  rfl

theorem handleInitialize_oauth {h : InitHeaders} (bodyAuth : Option String)
    {c : TokenCache} {now : Int} {resp : OAuthResponse} {t : Token}
    (hb : jsTruthy (bearerExtract h.authorization) = false)
    (hid : jsTruthy h.xSpId = true) (hsec : jsTruthy h.xSpSecret = true)
    (hr : (getSendPulseOAuthToken c now (h.xSpId.getD "") (h.xSpSecret.getD "") resp).result
      = some t)
    (ht : t.token ≠ "") :
    handleInitialize h bodyAuth c now resp =
      ⟨.session t.token,
       (getSendPulseOAuthToken c now (h.xSpId.getD "") (h.xSpSecret.getD "") resp).cache,
       (getSendPulseOAuthToken c now (h.xSpId.getD "") (h.xSpSecret.getD "") resp).exchanged⟩ := by
  have hstep := oauthStep_run c now resp hb hid hsec
  rw [hr] at hstep
  have htr : jsTruthy (some t.token) = true := jsTruthy_some_true ht
  rw [handleInitialize_eq]
  simp only [hstep, bodyStep_keep bodyAuth htr]
  rw [if_neg (by simp [htr])]
  rfl

theorem handleInitialize_bodyToken {h : InitHeaders} {bodyAuth : Option String}
    (c : TokenCache) (now : Int) (resp : OAuthResponse)
    (hb : jsTruthy (bearerExtract h.authorization) = false)
    (hpair : jsTruthy h.xSpId = false ∨ jsTruthy h.xSpSecret = false)
    (hbody : jsTruthy bodyAuth = true) :
    handleInitialize h bodyAuth c now resp = ⟨.session (bodyAuth.getD ""), c, false⟩ := by
  rw [handleInitialize_eq]
  simp only [oauthStep_no_pair c now resp hpair, bodyStep_use hb hbody]
  rw [if_neg (by simp [hbody])]

/-- C1 counterexample: the header `authorization: "Bearer "` is a present
bearer header (it starts with `Bearer `), yet because the extracted token
is the empty string — falsy in JavaScript — the handler falls through to
the `x-sp-id`/`x-sp-secret` pair: an OAuth exchange IS performed and its
token, not the (empty) bearer token, authenticates the session. -/
theorem C1_counterexample :
    jsStartsWith "Bearer " "Bearer " = true ∧
    handleInitialize ⟨some "Bearer ", some "id1", some "sec1"⟩ none [] 0
        (.ok "newtok" (some 3600)) =
      ⟨.session "newtok", [("id1", ⟨"newtok", 3540000⟩)], true⟩ := by
  exact ⟨by decide, by decide⟩

/-- C1 (amended): credential precedence with JavaScript truthiness: a
bearer header whose extracted token is nonempty is used verbatim, with no
OAuth exchange, even when the api id/secret headers are present; when no
(nonempty) bearer token was extracted and both `x-sp-id` and `x-sp-secret`
are present and nonempty, the OAuth/token-cache path decides, its
(nonempty) token authenticating the session; when that pair is not
supplied either, a nonempty body-level token is used. -/
theorem C1_credential_precedence :
    (∀ (h : InitHeaders) (bodyAuth : Option String) (c : TokenCache) (now : Int)
        (resp : OAuthResponse) (tk : String),
      bearerExtract h.authorization = some tk → tk ≠ "" →
      handleInitialize h bodyAuth c now resp = ⟨.session tk, c, false⟩) ∧
    (∀ (h : InitHeaders) (bodyAuth : Option String) (c : TokenCache) (now : Int)
        (resp : OAuthResponse) (t : Token),
      jsTruthy (bearerExtract h.authorization) = false →
      jsTruthy h.xSpId = true → jsTruthy h.xSpSecret = true →
      (getSendPulseOAuthToken c now (h.xSpId.getD "") (h.xSpSecret.getD "") resp).result
        = some t →
      t.token ≠ "" →
      handleInitialize h bodyAuth c now resp =
        ⟨.session t.token,
         (getSendPulseOAuthToken c now (h.xSpId.getD "") (h.xSpSecret.getD "") resp).cache,
         (getSendPulseOAuthToken c now (h.xSpId.getD "") (h.xSpSecret.getD "") resp).exchanged⟩) ∧
    (∀ (h : InitHeaders) (bodyAuth : Option String) (c : TokenCache) (now : Int)
        (resp : OAuthResponse),
      jsTruthy (bearerExtract h.authorization) = false →
      (jsTruthy h.xSpId = false ∨ jsTruthy h.xSpSecret = false) →
      jsTruthy bodyAuth = true →
      handleInitialize h bodyAuth c now resp = ⟨.session (bodyAuth.getD ""), c, false⟩) :=
  ⟨fun _ bodyAuth c now resp _ hb htk =>
      handleInitialize_bearer bodyAuth c now resp hb htk,
   fun _ bodyAuth _ _ _ _ hb hid hsec hr ht =>
      handleInitialize_oauth bodyAuth hb hid hsec hr ht,
   fun _ _ c now resp hb hpair hbody =>
      handleInitialize_bodyToken c now resp hb hpair hbody⟩

/-- C1 witness: concrete instances of all three precedence legs: a request
with `authorization: "Bearer abc"` plus an api id/secret pair resolves to
the verbatim token `abc` with no exchange; an id/secret-only request
resolves through the OAuth path; a body-token-only request resolves to the
body token. -/
theorem C1_credential_precedence_witness :
    handleInitialize ⟨some "Bearer abc", some "id1", some "sec1"⟩ (some "bodytok") [] 0
        .networkError = ⟨.session "abc", [], false⟩ ∧
    handleInitialize ⟨none, some "id1", some "sec1"⟩ (some "bodytok") [] 0
        (.ok "oauthtok" (some 3600)) =
      ⟨.session "oauthtok", [("id1", ⟨"oauthtok", 3540000⟩)], true⟩ ∧
    handleInitialize ⟨none, none, none⟩ (some "bodytok") [] 0 .networkError =
      ⟨.session "bodytok", [], false⟩ := by
  refine ⟨C1_credential_precedence.1 ⟨some "Bearer abc", some "id1", some "sec1"⟩
      (some "bodytok") [] 0 .networkError "abc" (by decide) (by decide),
    ?_,
    C1_credential_precedence.2.2 ⟨none, none, none⟩ (some "bodytok") [] 0 .networkError
      (by decide) (Or.inl (by decide)) (by decide)⟩
  have h := C1_credential_precedence.2.1 ⟨none, some "id1", some "sec1"⟩
      (some "bodytok") [] 0 (.ok "oauthtok" (some 3600)) ⟨"oauthtok", 3540000⟩
      (by decide) (by decide) (by decide) (by decide) (by decide)
  exact h

-- --- C6 ---

theorem handleInitialize_unauthorized {h : InitHeaders} {bodyAuth : Option String}
    {c : TokenCache} {now : Int} {resp : OAuthResponse}
    (hb : jsTruthy (bearerExtract h.authorization) = false)
    (hoauth : jsTruthy h.xSpId = true → jsTruthy h.xSpSecret = true →
      jsTruthy ((getSendPulseOAuthToken c now (h.xSpId.getD "") (h.xSpSecret.getD "")
        resp).result.map Token.token) = false)
    (hbody : jsTruthy bodyAuth = false) :
    (handleInitialize h bodyAuth c now resp).outcome = .unauthorized 401 (-32001) := by
  rw [handleInitialize_eq]
  by_cases hid : jsTruthy h.xSpId = true
  · by_cases hsec : jsTruthy h.xSpSecret = true
    · have hmap := hoauth hid hsec
      have hstep := oauthStep_run c now resp hb hid hsec
      cases hr : (getSendPulseOAuthToken c now (h.xSpId.getD "") (h.xSpSecret.getD "")
          resp).result with
      | none =>
        rw [hr] at hstep
        simp only [hstep, bodyStep_none hb hbody]
        rw [if_pos (by simp [hb])]
      | some t =>
        rw [hr] at hstep hmap
        have ht : jsTruthy (some t.token) = false := by
          simpa using hmap
        simp only [hstep, bodyStep_none ht hbody]
        rw [if_pos (by simp [ht])]
    · have hsec' : jsTruthy h.xSpSecret = false := by
        cases hx : jsTruthy h.xSpSecret
        · rfl
        · exact absurd hx hsec
      simp only [oauthStep_no_pair c now resp (Or.inr hsec'), bodyStep_none hb hbody]
      rw [if_pos (by simp [hb])]
  · have hid' : jsTruthy h.xSpId = false := by
      cases hx : jsTruthy h.xSpId
      · rfl
      · exact absurd hx hid
    simp only [oauthStep_no_pair c now resp (Or.inl hid'), bodyStep_none hb hbody]
    rw [if_pos (by simp [hb])]

/-- C6: an initialize request in which the bearer header yields no
(truthy) token, the id/secret path yields no (truthy) token, and the body
carries no (truthy) token is answered with the 401 Unauthorized JSON-RPC
error (code -32001), and the session table is unchanged — no transport is
constructed and no entry is registered. -/
theorem C6_unauthorized_no_session :
    ∀ (sessions : SessTable) (newSid : String) (newTid : Nat) (h : InitHeaders)
      (bodyAuth : Option String) (c : TokenCache) (now : Int) (resp : OAuthResponse),
      jsTruthy (bearerExtract h.authorization) = false →
      (jsTruthy h.xSpId = true → jsTruthy h.xSpSecret = true →
        jsTruthy ((getSendPulseOAuthToken c now (h.xSpId.getD "") (h.xSpSecret.getD "")
          resp).result.map Token.token) = false) →
      jsTruthy bodyAuth = false →
      (handleInitWithSessions sessions newSid newTid h bodyAuth c now resp).1.outcome
        = .unauthorized 401 (-32001) ∧
      (handleInitWithSessions sessions newSid newTid h bodyAuth c now resp).2 = sessions := by
  intro sessions newSid newTid h bodyAuth c now resp hb hoauth hbody
  have hout := handleInitialize_unauthorized hb hoauth hbody
  constructor
  · simp [handleInitWithSessions, hout]
  · simp [handleInitWithSessions, hout]

/-- C6 witness: a concrete credentialless initialize request (no
authorization header, no id/secret pair, no body token) against a
nonempty session table: 401 outcome, table untouched. -/
theorem C6_unauthorized_no_session_witness :
    (handleInitWithSessions [("s0", 7)] "s1" 9 ⟨none, none, none⟩ none [] 0
        .networkError).1.outcome = .unauthorized 401 (-32001) ∧
    (handleInitWithSessions [("s0", 7)] "s1" 9 ⟨none, none, none⟩ none [] 0
        .networkError).2 = [("s0", 7)] :=
  C6_unauthorized_no_session [("s0", 7)] "s1" 9 ⟨none, none, none⟩ none [] 0
    .networkError (by decide) (fun hid _ => by simp [jsTruthy] at hid) (by decide)

-- --- C4 ---

/-- C4: transport closure at time `now` leaves the session table unchanged
(the id stays routable) and schedules the identity-checked cleanup exactly
60000 ms later; the fired cleanup never deletes an entry now held by a
different transport (re-registration during the grace period survives);
and whenever the fired cleanup changes the table at all, the entry it
removed was still the very transport that closed. -/
theorem C4_grace_period_cleanup :
    (∀ (t : SessTable) (sid : String) (tid : Nat) (now : Int), sid ≠ "" →
      (handleTransportClose t (some sid) tid now).1 = t ∧
      (handleTransportClose t (some sid) tid now).2 = some ⟨sid, tid, now + 60000⟩) ∧
    (∀ (t : SessTable) (j : ScheduledCleanup) (tid' : Nat),
      tableGet t j.sid = some tid' → tid' ≠ j.tid →
      runScheduledCleanup t j = t) ∧
    (∀ (t : SessTable) (j : ScheduledCleanup),
      runScheduledCleanup t j ≠ t → tableGet t j.sid = some j.tid) := by
  refine ⟨fun t sid tid now hsid => ?_, fun t j tid' hget hne => ?_, fun t j hchange => ?_⟩
  · rw [handleTransportClose, if_pos hsid]
    exact ⟨rfl, rfl⟩
  · rw [runScheduledCleanup, hget]
    show (if tid' = j.tid then tableDelete t j.sid else t) = t
    exact if_neg hne
  · rw [runScheduledCleanup] at hchange
    cases hget : tableGet t j.sid with
    | none => rw [hget] at hchange; exact absurd rfl hchange
    | some tid =>
      rw [hget] at hchange
      have hchange' : (if tid = j.tid then tableDelete t j.sid else t) ≠ t := hchange
      by_cases he : tid = j.tid
      · rw [he]
      · rw [if_neg he] at hchange'; exact absurd rfl hchange'

/-- C4 witness: a transport with session id `"s"` (identity 1) closes at
time 0: the table keeps the entry and a cleanup is scheduled for t=60000;
a cleanup firing after `"s"` was re-registered to transport 2 is a no-op;
and a cleanup that did delete did so with transport 1 still registered. -/
theorem C4_grace_period_cleanup_witness :
    ((handleTransportClose [("s", 1)] (some "s") 1 0).1 = [("s", 1)] ∧
     (handleTransportClose [("s", 1)] (some "s") 1 0).2 = some ⟨"s", 1, 0 + 60000⟩) ∧
    runScheduledCleanup [("s", 2)] ⟨"s", 1, 60000⟩ = [("s", 2)] ∧
    tableGet [("s", 1)] "s" = some 1 := by
  refine ⟨C4_grace_period_cleanup.1 [("s", 1)] "s" 1 0 (by decide),
    C4_grace_period_cleanup.2.1 [("s", 2)] ⟨"s", 1, 60000⟩ 2 (by rfl) (by decide),
    C4_grace_period_cleanup.2.2 [("s", 1)] ⟨"s", 1, 60000⟩ (by decide)⟩

-- --- C5 ---

/-- C5 counterexample: on a transport-level failure (network error), the
proxy's uniform failure value carries the error message
`"An unexpected error occurred."`, not the claimed `"unexpected error"`. -/
theorem C5_counterexample :
    (makeSendPulseRequest "chatbots" "/dialogs" "tok" {} .networkError).getField "error"
      = some (.str "An unexpected error occurred.") ∧
    "An unexpected error occurred." ≠ "unexpected error" := by
  exact ⟨rfl, by decide⟩

/-- C5 (amended): on a non-success HTTP status `N` the proxy returns
(never throws) `{success: false, error: "API request failed with status N",
details: <raw body>}`; on a transport-level failure (network error or
non-JSON body) it returns
`{success: false, error: "An unexpected error occurred."}`; and the tools
forward the proxy value verbatim, serialized, as their textual output. -/
theorem C5_uniform_failure :
    (∀ (ch p tok : String) (opts : RequestOptions) (status : Nat) (body : String),
      makeSendPulseRequest ch p tok opts (.httpError status body) =
        .obj [("success", .bool false),
              ("error", .str ("API request failed with status " ++ toString status)),
              ("details", .str body)]) ∧
    (∀ (ch p tok : String) (opts : RequestOptions),
      makeSendPulseRequest ch p tok opts .networkError =
        .obj [("success", .bool false), ("error", .str "An unexpected error occurred.")] ∧
      makeSendPulseRequest ch p tok opts .okBadJson =
        .obj [("success", .bool false), ("error", .str "An unexpected error occurred.")]) ∧
    (∀ (tok : String) (outcome : FetchOutcome) (a : GetDialogsArgs),
      getAccountInfoHandler tok outcome =
        toolText (makeSendPulseRequest "chatbots" "/account" tok {} outcome) ∧
      getBotsListHandler tok outcome =
        toolText (makeSendPulseRequest "chatbots" "/bots" tok {} outcome) ∧
      getDialogsHandler tok a outcome =
        toolText (makeSendPulseRequest "chatbots" "/dialogs" tok
          { params := some (getDialogsParams a) } outcome)) ∧
    (∀ (tok ch cid txt : String) (outcome : FetchOutcome) (body : Json),
      sendMessageBody ch cid txt = some body →
      sendMessageHandler tok ch cid txt outcome =
        toolText (makeSendPulseRequest ch "/contacts/send" tok
          { method := some "POST", body := some body } outcome)) := by
  refine ⟨fun _ _ _ _ _ _ => rfl,
    fun _ _ _ _ => ⟨rfl, rfl⟩,
    fun _ _ _ => ⟨rfl, rfl, rfl⟩,
    fun tok ch cid txt outcome body hbody => ?_⟩
  rw [sendMessageHandler, hbody]

/-- C5 witness: a concrete 404 on the dialog-list call yields the uniform
failure value with the status message and raw body, and `send_message` on
telegram forwards the proxy value as its text. -/
theorem C5_uniform_failure_witness :
    makeSendPulseRequest "chatbots" "/dialogs" "tok" {} (.httpError 404 "not found") =
      .obj [("success", .bool false),
            ("error", .str ("API request failed with status " ++ toString 404)),
            ("details", .str "not found")] ∧
    sendMessageHandler "tok" "telegram" "c1" "hi" (.httpError 404 "not found") =
      toolText (makeSendPulseRequest "telegram" "/contacts/send" "tok"
        { method := some "POST",
          body := some (.obj [("contact_id", .str "c1"),
                              ("message", .obj [("type", .str "text"),
                                                ("text", .str "hi")])]) }
        (.httpError 404 "not found")) :=
  ⟨C5_uniform_failure.1 "chatbots" "/dialogs" "tok" {} 404 "not found",
   C5_uniform_failure.2.2.2 "tok" "telegram" "c1" "hi" (.httpError 404 "not found")
     (.obj [("contact_id", .str "c1"),
            ("message", .obj [("type", .str "text"), ("text", .str "hi")])]) rfl⟩

-- --- C7 ---

/-- C7: for each supported channel tag, `send_message` issues a POST to
`/contacts/send` under that channel's path prefix with the
channel-specific body: whatsapp wraps the text as `message.text.body`,
telegram as a flat `message.text` string, instagram as a `messages` array
with `message.text`, messenger as a RESPONSE-tagged message, and
livechat/viber as a `messages` array with `text.text`. -/
theorem C7_send_message_per_channel :
    ∀ (cid text : String),
      sendMessageCall "whatsapp" cid text =
        some ⟨"https://api.sendpulse.com/whatsapp/contacts/send", "POST", [],
          some (.obj [("contact_id", .str cid),
                      ("message", .obj [("type", .str "text"),
                                        ("text", .obj [("body", .str text)])])])⟩ ∧
      sendMessageCall "telegram" cid text =
        some ⟨"https://api.sendpulse.com/telegram/contacts/send", "POST", [],
          some (.obj [("contact_id", .str cid),
                      ("message", .obj [("type", .str "text"), ("text", .str text)])])⟩ ∧
      sendMessageCall "instagram" cid text =
        some ⟨"https://api.sendpulse.com/instagram/contacts/send", "POST", [],
          some (.obj [("contact_id", .str cid),
                      ("messages", .arr [.obj [("type", .str "text"),
                                               ("message", .obj [("text", .str text)])]])])⟩ ∧
      sendMessageCall "messenger" cid text =
        some ⟨"https://api.sendpulse.com/messenger/contacts/send", "POST", [],
          some (.obj [("contact_id", .str cid),
                      ("message", .obj [("type", .str "RESPONSE"),
                                        ("tag", .str "ACCOUNT_UPDATE"),
                                        ("content_type", .str "message"),
                                        ("text", .str text)])])⟩ ∧
      sendMessageCall "livechat" cid text =
        some ⟨"https://api.sendpulse.com/live-chat/contacts/send", "POST", [],
          some (.obj [("contact_id", .str cid),
                      ("messages", .arr [.obj [("type", .str "text"),
                                               ("text", .obj [("text", .str text)])]])])⟩ ∧
      sendMessageCall "viber" cid text =
        some ⟨"https://api.sendpulse.com/viber/chatbots/contacts/send", "POST", [],
          some (.obj [("contact_id", .str cid),
                      ("messages", .arr [.obj [("type", .str "text"),
                                               ("text", .obj [("text", .str text)])]])])⟩ :=
  fun _ _ => ⟨rfl, rfl, rfl, rfl, rfl, rfl⟩

-- --- C8 ---

/-- C8 counterexample: handed the unrecognized channel tag `"smoke"`, the
proxy does not fail with an unsupported-channel result: the base path
lookup yields `undefined`, the fetched URL is the nonsense
`https://api.sendpulse.comundefined/contacts/send`, and the proxy simply
returns whatever the fetch produced. -/
theorem C8_counterexample :
    channelBasePath "smoke" = "undefined" ∧
    requestUrl "smoke" "/contacts/send" none =
      "https://api.sendpulse.comundefined/contacts/send" ∧
    makeSendPulseRequest "smoke" "/contacts/send" "tok" {} (.ok (.str "fetched"))
      = .str "fetched" := by
  exact ⟨rfl, rfl, rfl⟩

/-- C8 (amended): only `send_message` guards against an unrecognized
channel tag, answering with the textual `not supported` result rather
than throwing; the proxy itself performs no recognition check — for a tag
outside `CHANNEL_API_PATHS` it resolves the base path to the string
`"undefined"` and issues the request anyway, its result determined solely
by the fetch outcome. -/
theorem C8_unsupported_channel :
    (∀ (tok ch cid txt : String) (outcome : FetchOutcome),
      sendMessageBody ch cid txt = none →
      sendMessageHandler tok ch cid txt outcome =
        ⟨"Error: Channel '" ++ ch ++ "' is not supported."⟩) ∧
    (∀ ch : String, ch ∉ CHANNEL_API_PATHS.map Prod.fst →
      channelBasePath ch = "undefined") ∧
    (∀ (ch p tok : String) (opts : RequestOptions) (body : Json),
      ch ∉ CHANNEL_API_PATHS.map Prod.fst →
      makeSendPulseRequest ch p tok opts (.ok body) = body) := by
  refine ⟨fun tok ch cid txt outcome hbody => ?_, fun ch hch => ?_, fun _ _ _ _ _ _ => rfl⟩
  · rw [sendMessageHandler, hbody]
  · simp only [CHANNEL_API_PATHS, List.map, List.mem_cons, List.not_mem_nil, or_false,
      not_or] at hch
    obtain ⟨h1, h2, h3, h4, h5, h6, h7⟩ := hch
    simp [channelBasePath, CHANNEL_API_PATHS, List.lookup, beq_false_of_ne h1,
      beq_false_of_ne h2, beq_false_of_ne h3, beq_false_of_ne h4, beq_false_of_ne h5,
      beq_false_of_ne h6, beq_false_of_ne h7]

/-- C8 witness: the `send_message` handler answers the unrecognized tag
`"smoke"` with the textual not-supported result, and the proxy resolves
its base path to `"undefined"` without failing. -/
theorem C8_unsupported_channel_witness :
    sendMessageHandler "tok" "smoke" "c1" "hi" .networkError =
      ⟨"Error: Channel '" ++ "smoke" ++ "' is not supported."⟩ ∧
    channelBasePath "smoke" = "undefined" ∧
    makeSendPulseRequest "smoke" "/x" "tok" {} (.ok .null) = .null :=
  ⟨C8_unsupported_channel.1 "tok" "smoke" "c1" "hi" .networkError rfl,
   C8_unsupported_channel.2.1 "smoke" (by decide),
   C8_unsupported_channel.2.2 "smoke" "/x" "tok" {} .null (by decide)⟩

-- --- C9 ---

/-- C9 counterexample: the `get_dialogs` input schema declares exactly the
three parameters `size`, `skip` and `order` — the cursor parameter
(`search_after`) is commented out in the source and not declared, so the
declared paging/sort parameters do not comprise a cursor. -/
theorem C9_counterexample :
    getDialogsSchema = ["size", "skip", "order"] ∧
    "search_after" ∉ getDialogsSchema ∧
    "cursor" ∉ getDialogsSchema ∧
    getDialogsSchema.length = 3 := by
  exact ⟨rfl, by decide, by decide, rfl⟩

/-- C9 (amended): `get_dialogs` declares the optional paging/sort
parameters `size` (page size), `skip` (offset) and `order` (sort order) —
no cursor parameter — and each invocation issues a GET to
`/chatbots/dialogs` whose query parameters are exactly the supplied
(non-`undefined`, non-`null`) arguments, stringified. -/
theorem C9_dialog_params :
    getDialogsSchema = ["size", "skip", "order"] ∧
    (∀ a : GetDialogsArgs,
      (getDialogsCall a).method = "GET" ∧
      (getDialogsCall a).params = getDialogsParams a ∧
      (getDialogsCall a).url =
        "https://api.sendpulse.com/chatbots/dialogs?" ++ renderQuery (getDialogsParams a)) ∧
    (∀ (a : GetDialogsArgs) (k v : String),
      (k, v) ∈ getDialogsParams a ↔
        (k = "size" ∧ ∃ n, a.size = some n ∧ v = toString n) ∨
        (k = "skip" ∧ ∃ n, a.skip = some n ∧ v = toString n) ∨
        (k = "order" ∧ a.order = some v)) := by
  refine ⟨rfl, fun a => ⟨rfl, rfl, rfl⟩, fun a k v => ?_⟩
  cases hs : a.size <;> cases hk : a.skip <;> cases ho : a.order <;>
    simp [getDialogsParams, hs, hk, ho] <;> aesop

/-- C9 witness: with `size = 5` and `order = "desc"` supplied and `skip`
absent, exactly the two supplied parameters are forwarded, in the
declared shapes. -/
theorem C9_dialog_params_witness :
    (getDialogsCall ⟨some 5, none, some "desc"⟩).params = [("size", "5"), ("order", "desc")] ∧
    (("size", "5") ∈ getDialogsParams ⟨some 5, none, some "desc"⟩ ↔
      (("size" : String) = "size" ∧ ∃ n, (some (5 : Int)) = some n ∧ ("5" : String) = toString n) ∨
      (("size" : String) = "skip" ∧ ∃ n, (none : Option Int) = some n ∧ ("5" : String) = toString n) ∨
      (("size" : String) = "order" ∧ (some "desc") = some "5")) :=
  ⟨(C9_dialog_params.2.1 ⟨some 5, none, some "desc"⟩).2.1,
   C9_dialog_params.2.2 ⟨some 5, none, some "desc"⟩ "size" "5"⟩

end SendPulse
